import Mathlib

/-!
Shallow embedding of the ToDo gRPC service (`pkg/service/v1`, file
`todo-service.go`, given as `src/unnamed/part_000`) of
thanhbinhdoan1993/go-grpc-example.

The database is modelled as an explicit table state (a list of rows plus the
auto-increment counter); each handler is a pure function from the state and a
request message to an outcome and the new state.  Wall-clock time values are
modelled as integers counting nanoseconds since the Unix epoch; the protobuf
well-known `Timestamp` wire message is a structured (seconds, nanos) pair.
The `ptypes` conversions (`ptypes.Timestamp`, `ptypes.TimestampProto`) are
embedded with the validity window of the protobuf library
(seconds in [-62135596800, 253402300800), nanos in [0, 1e9)).
-/

namespace TodoService

/-- gRPC status codes that appear in the service. -/
inductive Code where
  | invalidArgument
  | notFound
  | unimplemented
  | internal
  deriving DecidableEq, Repr

/-- A gRPC status error as produced by status.Errorf: a code and a message. -/
structure GrpcError where
  code : Code
  msg : String
  deriving DecidableEq, Repr

/-- Outcome of a handler call: a normal response, a gRPC error, or a runtime
panic (a nil-pointer dereference in the Go code). -/
inductive Outcome (α : Type) where
  | ok : α → Outcome α
  | fail : GrpcError → Outcome α
  | panics : Outcome α
  deriving DecidableEq, Repr

/-- Wire-format timestamp: the protobuf well-known Timestamp message,
a (seconds since epoch, nanosecond offset) pair. -/
structure Timestamp where
  seconds : Int
  nanos : Int
  deriving DecidableEq, Repr

/-- The ToDo wire message (proto `v1.ToDo`): id, title, description and a
reminder timestamp.  The reminder is a message field, hence a pointer in Go;
it is modelled as an `Option`. -/
structure ToDo where
  id : Int
  title : String
  description : String
  reminder : Option Timestamp
  deriving DecidableEq, Repr

/-- One row of the `ToDo` SQL table: ID, Title, Description and the Reminder
column, the latter stored as a native time value (nanoseconds since epoch). -/
structure Row where
  id : Int
  title : String
  description : String
  reminder : Int
  deriving DecidableEq, Repr

/-- The database state: the rows of the single `ToDo` table plus the
auto-increment counter that assigns the next ID. -/
structure DB where
  rows : List Row
  nextId : Int
  deriving DecidableEq, Repr

/-- Lower bound of ptypes validity: seconds of 0001-01-01T00:00:00Z. -/
def minValidSeconds : Int := -62135596800

/-- Upper bound (exclusive) of ptypes validity: seconds of 10000-01-01. -/
def maxValidSeconds : Int := 253402300800

/-- Nanoseconds per second. -/
def nanosPerSecond : Int := 1000000000

/-- ptypes.validateTimestamp: a nil timestamp, out-of-range seconds or
out-of-range nanos are rejected. -/
def validateTimestamp : Option Timestamp → Except String Unit
  | none => Except.error "timestamp: nil Timestamp"
  | some ts =>
    if ts.seconds < minValidSeconds then
      Except.error "timestamp before 0001-01-01"
    else if maxValidSeconds ≤ ts.seconds then
      Except.error "timestamp after 10000-01-01"
    else if ts.nanos < 0 then
      Except.error "timestamp: nanos not in range"
    else if nanosPerSecond ≤ ts.nanos then
      Except.error "timestamp: nanos not in range"
    else
      Except.ok ()

/-- ptypes.Timestamp: convert a wire timestamp to a native time value
(nanoseconds since epoch), failing on an invalid timestamp. -/
def ptypesTimestamp (ts : Option Timestamp) : Except String Int :=
  match validateTimestamp ts with
  | Except.error e => Except.error e
  | Except.ok _ =>
    match ts with
    | none => Except.ok 0
    | some t => Except.ok (t.seconds * nanosPerSecond + t.nanos)

/-- ptypes.TimestampProto: convert a native time value back to a wire
timestamp (time.Unix gives the floor-divided seconds, time.Nanosecond the
nonnegative nanosecond remainder), validating the result. -/
def ptypesTimestampProto (t : Int) : Except String Timestamp :=
  let ts : Timestamp := { seconds := Int.fdiv t nanosPerSecond,
                          nanos := Int.fmod t nanosPerSecond }
  match validateTimestamp (some ts) with
  | Except.error e => Except.error e
  | Except.ok _ => Except.ok ts

/-- apiVersion is version of API provided by server. -/
def apiVersion : String := "v1"

/-- The Unimplemented error produced by checkAPI, carrying both the expected
and the requested version in its message. -/
def unsupportedVersionError (expected requested : String) : GrpcError :=
  { code := Code.unimplemented,
    msg := "unsupported API version: service implements API version " ++
           expected ++ " but asked for " ++ requested }

/-- checkAPI checks if the API version requested by the client is supported
by the server; the empty string means current version. -/
def checkAPI (api : String) : Option GrpcError :=
  if api.length > 0 then
    if apiVersion ≠ api then some (unsupportedVersionError apiVersion api)
    else none
  else none

/-- Request message of Create: api version and the ToDo to insert (a message
field, hence possibly nil). -/
structure CreateRequest where
  api : String
  toDo : Option ToDo
  deriving DecidableEq, Repr

/-- Response message of Create: echoed api constant and the assigned ID. -/
structure CreateResponse where
  api : String
  id : Int
  deriving DecidableEq, Repr

/-- Request message of Read: api version and the ID to look up. -/
structure ReadRequest where
  api : String
  id : Int
  deriving DecidableEq, Repr

/-- Response message of Read: api constant and the decoded ToDo. -/
structure ReadResponse where
  api : String
  toDo : Option ToDo
  deriving DecidableEq, Repr

/-- Request message of Update: api version and the replacement ToDo. -/
structure UpdateRequest where
  api : String
  toDo : Option ToDo
  deriving DecidableEq, Repr

/-- Response message of Update: api constant and the affected-row count. -/
structure UpdateResponse where
  api : String
  updated : Int
  deriving DecidableEq, Repr

/-- Request message of Delete: api version and the ID to remove. -/
structure DeleteRequest where
  api : String
  id : Int
  deriving DecidableEq, Repr

/-- Response message of Delete: api constant and the deleted-row count. -/
structure DeleteResponse where
  api : String
  deleted : Int
  deriving DecidableEq, Repr

/-- Request message of ReadAll: only the api version. -/
structure ReadAllRequest where
  api : String
  deriving DecidableEq, Repr

/-- Response message of ReadAll: api constant and the list of ToDos. -/
structure ReadAllResponse where
  api : String
  toDos : List ToDo
  deriving DecidableEq, Repr

/-- Nil-safe GetTitle accessor of the generated ToDo message. -/
def getTitle : Option ToDo → String
  | none => ""
  | some td => td.title

/-- Nil-safe GetDescription accessor of the generated ToDo message. -/
def getDescription : Option ToDo → String
  | none => ""
  | some td => td.description

/-- Nil-safe GetReminder accessor of the generated ToDo message. -/
def getReminder : Option ToDo → Option Timestamp
  | none => none
  | some td => td.reminder

/-- Nil-safe GetId accessor of the generated ToDo message. -/
def getId : Option ToDo → Int
  | none => 0
  | some td => td.id

/-- Not-found error: ToDo with the given ID is not found. -/
def notFoundError (id : Int) : GrpcError :=
  { code := Code.notFound, msg := "ToDo with ID=" ++ toString id ++ " is not found" }

/-- Invalid-argument error of Create when ptypes.Timestamp rejects the
reminder. -/
def createInvalidReminderError (e : String) : GrpcError :=
  { code := Code.invalidArgument, msg := "reminder field has invalid format, " ++ e }

/-- Invalid-argument error of Update when ptypes.Timestamp rejects the
reminder (the source message reads filed, not field). -/
def updateInvalidReminderError (e : String) : GrpcError :=
  { code := Code.invalidArgument, msg := "reminder filed has invalid format, " ++ e }

/-- Internal error of Read when ptypes.TimestampProto rejects the stored
reminder. -/
def readReminderError (e : String) : GrpcError :=
  { code := Code.internal, msg := "reminder field has invalid format, " ++ e }

/-- Internal error of Read when more than one row carries the ID. -/
def multipleRowsError (id : Int) : GrpcError :=
  { code := Code.internal, msg := "found multiple ToDo rows with ID=" ++ toString id }

/-- Internal error of ReadAll when rows.Scan fails. -/
def readAllScanError (e : String) : GrpcError :=
  { code := Code.internal, msg := "failed to retrieve field value from rows, " ++ e }

/-- Internal error of ReadAll when ptypes.TimestampProto rejects a stored
reminder. -/
def readAllReminderError (e : String) : GrpcError :=
  { code := Code.internal, msg := "reminder field has invalid format, " ++ e }

/-- Create new todo task.  After the version check, the handler reads
req.ToDo.Reminder through a direct field access: when the ToDo message is
nil this is a nil-pointer dereference, i.e. a panic.  Otherwise the reminder
is converted from wire format (invalid-argument on failure), one row is
inserted with the auto-increment ID, and the new ID is returned with the
server api constant. -/
def Create (db : DB) (req : CreateRequest) : Outcome CreateResponse × DB :=
  match checkAPI req.api with
  | some e => (Outcome.fail e, db)
  | none =>
    match req.toDo with
    | none => (Outcome.panics, db)
    | some td =>
      match ptypesTimestamp td.reminder with
      | Except.error e => (Outcome.fail (createInvalidReminderError e), db)
      | Except.ok reminder =>
        let row : Row := { id := db.nextId, title := td.title,
                           description := td.description, reminder := reminder }
        (Outcome.ok { api := apiVersion, id := db.nextId },
         { rows := db.rows ++ [row], nextId := db.nextId + 1 })

/-- Read todo task.  After the version check, the rows matching the ID are
fetched; no row is not-found, otherwise the first row is decoded and its
stored time converted back to wire format (internal error on failure), and
a second matching row is an internal data-integrity error. -/
def Read (db : DB) (req : ReadRequest) : Outcome ReadResponse :=
  match checkAPI req.api with
  | some e => Outcome.fail e
  | none =>
    match db.rows.filter (fun r => r.id == req.id) with
    | [] => Outcome.fail (notFoundError req.id)
    | r :: rest =>
      match ptypesTimestampProto r.reminder with
      | Except.error e => Outcome.fail (readReminderError e)
      | Except.ok ts =>
        match rest with
        | [] => Outcome.ok { api := apiVersion,
                             toDo := some { id := r.id, title := r.title,
                                            description := r.description,
                                            reminder := some ts } }
        | _ :: _ => Outcome.fail (multipleRowsError req.id)

/-- Update todo task.  After the version check, the reminder is read through
the nil-safe GetReminder accessor and converted (invalid-argument on
failure); the row matching the ID is overwritten wholesale; zero affected
rows is not-found.  RowsAffected is modelled as the number of rows matching
the identifier. -/
def Update (db : DB) (req : UpdateRequest) : Outcome UpdateResponse × DB :=
  match checkAPI req.api with
  | some e => (Outcome.fail e, db)
  | none =>
    match ptypesTimestamp (getReminder req.toDo) with
    | Except.error e => (Outcome.fail (updateInvalidReminderError e), db)
    | Except.ok reminder =>
      let tid := getId req.toDo
      let affected : Int := (db.rows.filter (fun r => r.id == tid)).length
      if affected == 0 then
        (Outcome.fail (notFoundError tid), db)
      else
        (Outcome.ok { api := apiVersion, updated := affected },
         { db with rows := db.rows.map (fun r =>
             if r.id == tid then
               { r with title := getTitle req.toDo,
                        description := getDescription req.toDo,
                        reminder := reminder }
             else r) })

/-- Delete todo task.  After the version check, the rows matching the ID are
removed; a zero removed-row count is not-found, otherwise the count is
returned. -/
def Delete (db : DB) (req : DeleteRequest) : Outcome DeleteResponse × DB :=
  match checkAPI req.api with
  | some e => (Outcome.fail e, db)
  | none =>
    let affected : Int := (db.rows.filter (fun r => r.id == req.id)).length
    if affected == 0 then
      (Outcome.fail (notFoundError req.id), db)
    else
      (Outcome.ok { api := apiVersion, deleted := affected },
       { db with rows := db.rows.filter (fun r => r.id != req.id) })

/-- rows.Scan in ReadAll passes td.Id, td.Title and td.Description by value
(not by address as the database/sql contract requires), so the scan of every
row fails with the database/sql error for a non-pointer destination. -/
def scanRowByValue (_ : Row) : Except String (Int × String × String) :=
  Except.error "destination not a pointer"

/-- Loop body of ReadAll: scan each row in order, convert its stored time to
wire format, and accumulate the decoded ToDos. -/
def readAllLoop : List Row → List ToDo → Outcome (List ToDo)
  | [], acc => Outcome.ok acc
  | r :: rs, acc =>
    match scanRowByValue r with
    | Except.error e => Outcome.fail (readAllScanError e)
    | Except.ok (i, t, d) =>
      match ptypesTimestampProto r.reminder with
      | Except.error e => Outcome.fail (readAllReminderError e)
      | Except.ok ts =>
        readAllLoop rs (acc ++ [{ id := i, title := t, description := d,
                                  reminder := some ts }])

/-- Read all todo tasks.  After the version check, every row is scanned and
decoded in order; the full list is returned with the api constant. -/
def ReadAll (db : DB) (req : ReadAllRequest) : Outcome ReadAllResponse :=
  match checkAPI req.api with
  | some e => Outcome.fail e
  | none =>
    match readAllLoop db.rows [] with
    | Outcome.fail e => Outcome.fail e
    | Outcome.panics => Outcome.panics
    | Outcome.ok list => Outcome.ok { api := apiVersion, toDos := list }

end TodoService

namespace TodoService

example : checkAPI "" = none := by decide
example : checkAPI "v1" = none := by decide
example : (checkAPI "v2").isSome = true := by decide
example : ptypesTimestamp (some { seconds := 3, nanos := 7 }) = Except.ok 3000000007 := rfl
example : ptypesTimestampProto 3000000007 = Except.ok { seconds := 3, nanos := 7 } := rfl
example : ptypesTimestamp none = Except.error "timestamp: nil Timestamp" := rfl

/-- A string of length zero is the empty string. -/
theorem eq_empty_of_length_zero {s : String} (h : s.length = 0) : s = "" := by
  cases s with
  | mk data =>
    cases data with
    | nil => decide
    | cons c cs => simp [String.length] at h

/-- checkAPI rejects a non-empty version different from the server constant
with the Unimplemented error carrying both versions. -/
theorem checkAPI_reject (api : String) (h1 : api ≠ "") (h2 : api ≠ apiVersion) :
    checkAPI api = some (unsupportedVersionError apiVersion api) := by
  have hlen : api.length > 0 := by
    rcases Nat.eq_zero_or_pos api.length with h | h
    · exact absurd (eq_empty_of_length_zero h) h1
    · exact h
  have h3 : apiVersion ≠ api := fun h => h2 h.symm
  simp [checkAPI, hlen, h3]

/-- A version accepted by checkAPI is either empty or the server constant. -/
theorem api_of_checkAPI_none {api : String} (h : checkAPI api = none)
    (hne : api ≠ "") : api = apiVersion := by
  by_contra hne2
  rw [checkAPI_reject api hne hne2] at h
  exact Option.noConfusion h

/-- Floor division and remainder recover the (seconds, nanos) pair from a
native nanosecond count when the nanosecond part is in range. -/
theorem fdiv_fmod_split (s n : Int) (h0 : 0 ≤ n) (h1 : n < nanosPerSecond) :
    Int.fdiv (s * nanosPerSecond + n) nanosPerSecond = s ∧
    Int.fmod (s * nanosPerSecond + n) nanosPerSecond = n := by
  have hK : (0 : Int) ≤ nanosPerSecond := by simp [nanosPerSecond]
  rw [Int.fdiv_eq_ediv _ hK, Int.fmod_eq_emod _ hK]
  simp only [nanosPerSecond] at *
  omega

/-- Validation succeeds exactly when seconds and nanos are in the ptypes
validity window. -/
theorem validate_ok_iff (ts : Timestamp) :
    validateTimestamp (some ts) = Except.ok () ↔
      minValidSeconds ≤ ts.seconds ∧ ts.seconds < maxValidSeconds ∧
      0 ≤ ts.nanos ∧ ts.nanos < nanosPerSecond := by
  show (if ts.seconds < minValidSeconds then
          Except.error "timestamp before 0001-01-01"
        else if maxValidSeconds ≤ ts.seconds then
          Except.error "timestamp after 10000-01-01"
        else if ts.nanos < 0 then
          Except.error "timestamp: nanos not in range"
        else if nanosPerSecond ≤ ts.nanos then
          Except.error "timestamp: nanos not in range"
        else Except.ok ()) = Except.ok () ↔ _
  split_ifs with h1 h2 h3 h4 <;> simp <;> omega

/-- A valid wire timestamp converts to the native nanosecond count
seconds * 1e9 + nanos. -/
theorem ptypesTimestamp_of_valid (ts : Timestamp)
    (h : validateTimestamp (some ts) = Except.ok ()) :
    ptypesTimestamp (some ts) =
      Except.ok (ts.seconds * nanosPerSecond + ts.nanos) := by
  simp [ptypesTimestamp, h]

/-- Converting a valid wire timestamp to native time and back recovers the
original pair exactly. -/
theorem ptypes_roundtrip (ts : Timestamp)
    (h : validateTimestamp (some ts) = Except.ok ()) :
    ptypesTimestampProto (ts.seconds * nanosPerSecond + ts.nanos) =
      Except.ok ts := by
  obtain ⟨hs1, hs2, hn1, hn2⟩ := (validate_ok_iff ts).mp h
  obtain ⟨hd, hm⟩ := fdiv_fmod_split ts.seconds ts.nanos hn1 hn2
  unfold ptypesTimestampProto
  simp only [hd, hm]
  rw [h]

/-- C3: for every one of the five operations and every request whose api
field is a non-empty string different from the fixed server version
constant, the operation fails with the Unimplemented error carrying both the
expected and requested version, with the database state unchanged (hence no
side effects and no database access); an empty api field is always accepted
by checkAPI. -/
theorem version_guard_all_operations (api : String)
    (h1 : api ≠ "") (h2 : api ≠ apiVersion) :
    checkAPI "" = none ∧
    ∀ (db : DB) (cr : CreateRequest) (rr : ReadRequest) (ur : UpdateRequest)
      (dr : DeleteRequest) (ar : ReadAllRequest),
      cr.api = api → rr.api = api → ur.api = api → dr.api = api → ar.api = api →
        Create db cr = (Outcome.fail (unsupportedVersionError apiVersion api), db) ∧
        Read db rr = Outcome.fail (unsupportedVersionError apiVersion api) ∧
        Update db ur = (Outcome.fail (unsupportedVersionError apiVersion api), db) ∧
        Delete db dr = (Outcome.fail (unsupportedVersionError apiVersion api), db) ∧
        ReadAll db ar = Outcome.fail (unsupportedVersionError apiVersion api) := by
  refine ⟨rfl, ?_⟩
  intro db cr rr ur dr ar hcr hrr hur hdr har
  have hk := checkAPI_reject api h1 h2
  refine ⟨?_, ?_, ?_, ?_, ?_⟩
  · simp [Create, hcr, hk]
  · simp [Read, hrr, hk]
  · simp [Update, hur, hk]
  · simp [Delete, hdr, hk]
  · simp [ReadAll, har, hk]

/-- C3 witness: a concrete mismatched version v9 is rejected on all five
operations against a concrete one-row database, which is left unchanged. -/
theorem version_guard_all_operations_witness :
    Read { rows := [{ id := 1, title := "t", description := "d", reminder := 0 }],
           nextId := 2 }
        { api := "v9", id := 1 } =
      Outcome.fail (unsupportedVersionError apiVersion "v9") ∧
    Create { rows := [{ id := 1, title := "t", description := "d", reminder := 0 }],
             nextId := 2 }
        { api := "v9", toDo := none } =
      (Outcome.fail (unsupportedVersionError apiVersion "v9"),
       { rows := [{ id := 1, title := "t", description := "d", reminder := 0 }],
         nextId := 2 }) := by
  have h := (version_guard_all_operations "v9" (by decide) (by decide)).2
    { rows := [{ id := 1, title := "t", description := "d", reminder := 0 }], nextId := 2 }
    { api := "v9", toDo := none } { api := "v9", id := 1 }
    { api := "v9", toDo := none } { api := "v9", id := 1 } { api := "v9" }
    rfl rfl rfl rfl rfl
  exact ⟨h.2.1, h.1⟩

/-- C1: for every to-do item created with a valid wire timestamp, Create
followed by Read of the returned identifier yields an entity whose title,
description and reminder exactly equal what was submitted; the reminder
round-trips through the (seconds, nanos) wire format losslessly.  The
freshness hypothesis states the auto-increment invariant that no stored row
already carries the next ID. -/
theorem create_then_read_roundtrip (db : DB) (req : CreateRequest)
    (td : ToDo) (ts : Timestamp)
    (hapi : checkAPI req.api = none)
    (htd : req.toDo = some td)
    (hts : td.reminder = some ts)
    (hvalid : validateTimestamp (some ts) = Except.ok ())
    (hfresh : ∀ r ∈ db.rows, r.id ≠ db.nextId) :
    (Create db req).1 = Outcome.ok { api := apiVersion, id := db.nextId } ∧
    Read (Create db req).2 { api := req.api, id := db.nextId } =
      Outcome.ok { api := apiVersion,
                   toDo := some { id := db.nextId, title := td.title,
                                  description := td.description,
                                  reminder := some ts } } := by
  have hconv : ptypesTimestamp td.reminder =
      Except.ok (ts.seconds * nanosPerSecond + ts.nanos) := by
    rw [hts]; exact ptypesTimestamp_of_valid ts hvalid
  have hC : Create db req =
      (Outcome.ok { api := apiVersion, id := db.nextId },
       { rows := db.rows ++ [{ id := db.nextId, title := td.title,
                               description := td.description,
                               reminder := ts.seconds * nanosPerSecond + ts.nanos }],
         nextId := db.nextId + 1 }) := by
    simp [Create, hapi, htd, hconv]
  refine ⟨by rw [hC], ?_⟩
  rw [hC]
  have hold : db.rows.filter (fun r => r.id == db.nextId) = [] :=
    List.filter_eq_nil_iff.mpr (fun r hr => by simp [hfresh r hr])
  simp [Read, hapi, hold, ptypes_roundtrip ts hvalid]

/-- C1 witness: creating the item (Buy milk, 2 percent, reminder 100 s + 5 ns)
against the empty database and reading ID 1 returns exactly that item. -/
theorem create_then_read_roundtrip_witness :
    (Create { rows := [], nextId := 1 }
       { api := "v1",
         toDo := some { id := 0, title := "Buy milk", description := "2 percent",
                        reminder := some { seconds := 100, nanos := 5 } } }).1 =
      Outcome.ok { api := apiVersion, id := 1 } ∧
    Read (Create { rows := [], nextId := 1 }
       { api := "v1",
         toDo := some { id := 0, title := "Buy milk", description := "2 percent",
                        reminder := some { seconds := 100, nanos := 5 } } }).2
       { api := "v1", id := 1 } =
      Outcome.ok { api := apiVersion,
                   toDo := some { id := 1, title := "Buy milk",
                                  description := "2 percent",
                                  reminder := some { seconds := 100, nanos := 5 } } } :=
  create_then_read_roundtrip { rows := [], nextId := 1 }
    { api := "v1",
      toDo := some { id := 0, title := "Buy milk", description := "2 percent",
                     reminder := some { seconds := 100, nanos := 5 } } }
    { id := 0, title := "Buy milk", description := "2 percent",
      reminder := some { seconds := 100, nanos := 5 } }
    { seconds := 100, nanos := 5 }
    rfl rfl rfl rfl (by simp)

/-- C2: for every Read request with an accepted API version, against a
database whose stored times all convert back to wire format, exactly three
outcomes are possible, decided by the number of rows matching the
identifier: zero rows yields not-found, exactly one row yields the decoded
entity with its stored time converted back to the wire timestamp, and more
than one row yields the internal multiple-rows error. -/
theorem read_three_outcomes (db : DB) (req : ReadRequest)
    (hapi : checkAPI req.api = none)
    (hvalid : ∀ r ∈ db.rows, ∃ ts, ptypesTimestampProto r.reminder = Except.ok ts) :
    (db.rows.filter (fun r => r.id == req.id) = [] →
       Read db req = Outcome.fail (notFoundError req.id)) ∧
    (∀ r, db.rows.filter (fun r => r.id == req.id) = [r] →
       ∃ ts, ptypesTimestampProto r.reminder = Except.ok ts ∧
         Read db req =
           Outcome.ok { api := apiVersion,
                        toDo := some { id := r.id, title := r.title,
                                       description := r.description,
                                       reminder := some ts } }) ∧
    (∀ r r2 rest, db.rows.filter (fun r => r.id == req.id) = r :: r2 :: rest →
       Read db req = Outcome.fail (multipleRowsError req.id)) := by
  refine ⟨?_, ?_, ?_⟩
  · intro hf
    simp [Read, hapi, hf]
  · intro r hf
    have hr : r ∈ db.rows := by
      have : r ∈ db.rows.filter (fun r => r.id == req.id) := by
        rw [hf]; exact List.mem_singleton.mpr rfl
      exact (List.mem_filter.mp this).1
    obtain ⟨ts, hts⟩ := hvalid r hr
    exact ⟨ts, hts, by simp [Read, hapi, hf, hts]⟩
  · intro r r2 rest hf
    have hr : r ∈ db.rows := by
      have : r ∈ db.rows.filter (fun r => r.id == req.id) := by
        rw [hf]; exact List.mem_cons_self r (r2 :: rest)
      exact (List.mem_filter.mp this).1
    obtain ⟨ts, hts⟩ := hvalid r hr
    simp [Read, hapi, hf, hts]

/-- C2 witness: against a database holding exactly the row with ID 1,
reading ID 1 returns the decoded entity and reading ID 2 is not-found; the
three-way hypothesis set is satisfiable at this concrete state. -/
theorem read_three_outcomes_witness :
    Read { rows := [{ id := 1, title := "t", description := "d", reminder := 7 }],
           nextId := 2 } { api := "v1", id := 1 } =
      Outcome.ok { api := apiVersion,
                   toDo := some { id := 1, title := "t", description := "d",
                                  reminder := some { seconds := 0, nanos := 7 } } } ∧
    Read { rows := [{ id := 1, title := "t", description := "d", reminder := 7 }],
           nextId := 2 } { api := "v1", id := 2 } =
      Outcome.fail (notFoundError 2) := by
  constructor
  · obtain ⟨ts, hts, hread⟩ :=
      (read_three_outcomes
        { rows := [{ id := 1, title := "t", description := "d", reminder := 7 }],
          nextId := 2 } { api := "v1", id := 1 } rfl
        (by intro r hr
            refine ⟨{ seconds := 0, nanos := 7 }, ?_⟩
            simp at hr
            rw [hr]
            rfl)).2.1
        { id := 1, title := "t", description := "d", reminder := 7 } (by rfl)
    have : ts = { seconds := 0, nanos := 7 } := by
      have h7 : ptypesTimestampProto 7 =
          Except.ok { seconds := 0, nanos := 7 } := rfl
      rw [h7] at hts
      exact (Except.ok.injEq _ _).mp hts.symm
    rw [← this]
    exact hread
  · exact (read_three_outcomes
      { rows := [{ id := 1, title := "t", description := "d", reminder := 7 }],
        nextId := 2 } { api := "v1", id := 2 } rfl
      (by intro r hr
          refine ⟨{ seconds := 0, nanos := 7 }, ?_⟩
          simp at hr
          rw [hr]
          rfl)).1 (by rfl)

/-- A valid (hence non-nil) wire timestamp converts successfully to native
time. -/
theorem ptypesTimestamp_isOk_of_valid (ts : Option Timestamp)
    (h : validateTimestamp ts = Except.ok ()) :
    ∃ v, ptypesTimestamp ts = Except.ok v := by
  cases ts with
  | none => simp [validateTimestamp] at h
  | some t => exact ⟨_, ptypesTimestamp_of_valid t h⟩

/-- C6: for every Update request with an accepted API version and a valid
reminder timestamp whose identifier matches no stored row, the operation
returns the not-found error and the database state is exactly the state
before the call. -/
theorem update_nonexistent_id (db : DB) (req : UpdateRequest) (td : ToDo)
    (hapi : checkAPI req.api = none)
    (htd : req.toDo = some td)
    (hvalid : validateTimestamp td.reminder = Except.ok ())
    (hnone : ∀ r ∈ db.rows, r.id ≠ td.id) :
    Update db req = (Outcome.fail (notFoundError td.id), db) := by
  obtain ⟨v, hv⟩ := ptypesTimestamp_isOk_of_valid td.reminder hvalid
  have hrem : getReminder req.toDo = td.reminder := by rw [htd]; rfl
  have hid : getId req.toDo = td.id := by rw [htd]; rfl
  have hfilter : db.rows.filter (fun r => r.id == td.id) = [] :=
    List.filter_eq_nil_iff.mpr (fun r hr => by simp [hnone r hr])
  simp [Update, hapi, hrem, hv, hid, hfilter]

/-- C6 witness: updating ID 2 with a valid reminder against a database that
stores only ID 1 yields not-found and leaves the database unchanged. -/
theorem update_nonexistent_id_witness :
    Update { rows := [{ id := 1, title := "t", description := "d", reminder := 0 }],
             nextId := 2 }
        { api := "v1",
          toDo := some { id := 2, title := "u", description := "e",
                         reminder := some { seconds := 3, nanos := 4 } } } =
      (Outcome.fail (notFoundError 2),
       { rows := [{ id := 1, title := "t", description := "d", reminder := 0 }],
         nextId := 2 }) :=
  update_nonexistent_id
    { rows := [{ id := 1, title := "t", description := "d", reminder := 0 }],
      nextId := 2 }
    { api := "v1",
      toDo := some { id := 2, title := "u", description := "e",
                     reminder := some { seconds := 3, nanos := 4 } } }
    { id := 2, title := "u", description := "e",
      reminder := some { seconds := 3, nanos := 4 } }
    rfl rfl rfl (by simp)

/-- C7: for a stored identifier carried by exactly one row, a first Delete
succeeds with a reported count of 1 and an immediately following second
Delete of the same identifier yields the not-found error. -/
theorem delete_twice_not_idempotent (db : DB) (api : String) (id : Int)
    (hapi : checkAPI api = none)
    (hone : (db.rows.filter (fun r => r.id == id)).length = 1) :
    (Delete db { api := api, id := id }).1 =
      Outcome.ok { api := apiVersion, deleted := 1 } ∧
    (Delete (Delete db { api := api, id := id }).2 { api := api, id := id }).1 =
      Outcome.fail (notFoundError id) := by
  have h1 : Delete db { api := api, id := id } =
      (Outcome.ok { api := apiVersion, deleted := 1 },
       { db with rows := db.rows.filter (fun r => r.id != id) }) := by
    simp [Delete, hapi, hone]
  have h2 : (db.rows.filter (fun r => r.id != id)).filter
      (fun r => r.id == id) = [] := by
    simp [List.filter_filter, bne]
  refine ⟨by rw [h1], ?_⟩
  rw [h1]
  simp [Delete, hapi, h2]

/-- C7 witness: deleting ID 1 from a one-row database reports count 1, and
deleting it again reports not-found. -/
theorem delete_twice_not_idempotent_witness :
    (Delete { rows := [{ id := 1, title := "t", description := "d", reminder := 0 }],
              nextId := 2 } { api := "v1", id := 1 }).1 =
      Outcome.ok { api := apiVersion, deleted := 1 } ∧
    (Delete (Delete { rows := [{ id := 1, title := "t", description := "d",
                                 reminder := 0 }],
                      nextId := 2 } { api := "v1", id := 1 }).2
        { api := "v1", id := 1 }).1 =
      Outcome.fail (notFoundError 1) :=
  delete_twice_not_idempotent
    { rows := [{ id := 1, title := "t", description := "d", reminder := 0 }],
      nextId := 2 } "v1" 1 rfl (by rfl)

/-- C8: for every ReadAll request with an accepted API version issued
against an empty table, the operation returns an empty sequence of entities
and not an error. -/
theorem readAll_empty_table (req : ReadAllRequest) (nid : Int)
    (hapi : checkAPI req.api = none) :
    ReadAll { rows := [], nextId := nid } req =
      Outcome.ok { api := apiVersion, toDos := [] } := by
  simp [ReadAll, hapi, readAllLoop]

/-- C8 witness: ReadAll with the empty api version against the empty table
returns the empty list. -/
theorem readAll_empty_table_witness :
    ReadAll { rows := [], nextId := 1 } { api := "" } =
      Outcome.ok { api := apiVersion, toDos := [] } :=
  readAll_empty_table { api := "" } 1 rfl

/-- C9: for every Create request whose reminder wire timestamp is rejected
by the wire-to-native conversion, Create fails with the invalid-argument
error and the database state is unchanged, so no row is inserted. -/
theorem create_invalid_reminder (db : DB) (req : CreateRequest)
    (td : ToDo) (e : String)
    (hapi : checkAPI req.api = none)
    (htd : req.toDo = some td)
    (hbad : validateTimestamp td.reminder = Except.error e) :
    Create db req = (Outcome.fail (createInvalidReminderError e), db) := by
  have hconv : ptypesTimestamp td.reminder = Except.error e := by
    unfold ptypesTimestamp; rw [hbad]
  simp [Create, hapi, htd, hconv]

/-- C9 witness: a Create whose reminder has a negative nanos field fails
with the invalid-argument error and the empty database stays empty. -/
theorem create_invalid_reminder_witness :
    Create { rows := [], nextId := 1 }
        { api := "v1",
          toDo := some { id := 0, title := "t", description := "d",
                         reminder := some { seconds := 0, nanos := -1 } } } =
      (Outcome.fail (createInvalidReminderError "timestamp: nanos not in range"),
       { rows := [], nextId := 1 }) :=
  create_invalid_reminder { rows := [], nextId := 1 }
    { api := "v1",
      toDo := some { id := 0, title := "t", description := "d",
                     reminder := some { seconds := 0, nanos := -1 } } }
    { id := 0, title := "t", description := "d",
      reminder := some { seconds := 0, nanos := -1 } }
    "timestamp: nanos not in range" rfl rfl (by rfl)

/-- C10: for every Create request with an accepted API version whose ToDo
message is absent, the handler dereferences the nil message to read its
Reminder field and panics, while Update on the same shape of input reads
the reminder through the nil-safe accessor and returns the invalid-argument
error (the nil-Timestamp validation failure), leaving the state unchanged
in both cases. -/
theorem create_nil_todo_panics_update_errors (db : DB)
    (cr : CreateRequest) (ur : UpdateRequest)
    (hc : checkAPI cr.api = none) (hu : checkAPI ur.api = none)
    (hcn : cr.toDo = none) (hun : ur.toDo = none) :
    Create db cr = (Outcome.panics, db) ∧
    Update db ur =
      (Outcome.fail (updateInvalidReminderError "timestamp: nil Timestamp"), db) := by
  constructor
  · simp [Create, hc, hcn]
  · simp [Update, hu, hun, getReminder, ptypesTimestamp, validateTimestamp]

/-- C10 witness: on the empty database, Create with a nil ToDo panics and
Update with a nil ToDo fails with the invalid-argument error. -/
theorem create_nil_todo_panics_update_errors_witness :
    Create { rows := [], nextId := 1 } { api := "v1", toDo := none } =
      (Outcome.panics, { rows := [], nextId := 1 }) ∧
    Update { rows := [], nextId := 1 } { api := "v1", toDo := none } =
      (Outcome.fail (updateInvalidReminderError "timestamp: nil Timestamp"),
       { rows := [], nextId := 1 }) :=
  create_nil_todo_panics_update_errors { rows := [], nextId := 1 }
    { api := "v1", toDo := none } { api := "v1", toDo := none }
    rfl rfl rfl rfl

/-- C4 finding: on every non-empty table state with an accepted API version,
ReadAll returns the internal scan error rather than the decoded entities,
because rows.Scan receives td.Id, td.Title and td.Description by value
instead of by address and database/sql rejects a non-pointer destination on
the first row. -/
theorem readAll_nonempty_scan_fails (db : DB) (req : ReadAllRequest)
    (hapi : checkAPI req.api = none) (hne : db.rows ≠ []) :
    ReadAll db req =
      Outcome.fail (readAllScanError "destination not a pointer") := by
  cases hr : db.rows with
  | nil => exact absurd hr hne
  | cons r rs =>
    simp [ReadAll, hapi, hr, readAllLoop, scanRowByValue]

/-- C4 witness: against a one-row table, ReadAll returns the internal scan
error instead of the one-entity list the specification promises. -/
theorem readAll_nonempty_scan_fails_witness :
    ReadAll { rows := [{ id := 1, title := "t", description := "d", reminder := 0 }],
              nextId := 2 } { api := "v1" } =
      Outcome.fail (readAllScanError "destination not a pointer") :=
  readAll_nonempty_scan_fails
    { rows := [{ id := 1, title := "t", description := "d", reminder := 0 }],
      nextId := 2 } { api := "v1" } rfl (by simp)

/-- C5 counterexample: a successful Create whose request carries the empty
api field returns the api constant v1, which differs from the request api
field, so the request version is not echoed back. -/
theorem response_api_not_echoed_counterexample :
    (Create { rows := [], nextId := 1 }
       { api := "",
         toDo := some { id := 0, title := "t", description := "d",
                        reminder := some { seconds := 0, nanos := 0 } } }).1 =
      Outcome.ok { api := "v1", id := 1 } ∧
    ("v1" : String) ≠
      ({ api := "",
         toDo := some { id := 0, title := "t", description := "d",
                        reminder := some { seconds := 0, nanos := 0 } } } :
        CreateRequest).api := by
  constructor
  · rfl
  · decide

/-- C5 amended: the api field of a successful response of any of the five
operations equals the server version constant v1; consequently it equals
the request api field whenever that field is non-empty, but an empty
request api field is answered with v1, not echoed. -/
theorem success_api_is_server_version (db : DB)
    (cr : CreateRequest) (rr : ReadRequest) (ur : UpdateRequest)
    (dr : DeleteRequest) (ar : ReadAllRequest) :
    (∀ resp db2, Create db cr = (Outcome.ok resp, db2) →
       resp.api = apiVersion ∧ (cr.api ≠ "" → resp.api = cr.api)) ∧
    (∀ resp, Read db rr = Outcome.ok resp →
       resp.api = apiVersion ∧ (rr.api ≠ "" → resp.api = rr.api)) ∧
    (∀ resp db2, Update db ur = (Outcome.ok resp, db2) →
       resp.api = apiVersion ∧ (ur.api ≠ "" → resp.api = ur.api)) ∧
    (∀ resp db2, Delete db dr = (Outcome.ok resp, db2) →
       resp.api = apiVersion ∧ (dr.api ≠ "" → resp.api = dr.api)) ∧
    (∀ resp, ReadAll db ar = Outcome.ok resp →
       resp.api = apiVersion ∧ (ar.api ≠ "" → resp.api = ar.api)) := by
  refine ⟨?_, ?_, ?_, ?_, ?_⟩
  · intro resp db2 h
    unfold Create at h
    cases hk : checkAPI cr.api with
    | some e => rw [hk] at h; simp at h
    | none =>
      rw [hk] at h
      dsimp only at h
      have hv : resp.api = apiVersion := by
        cases htd : cr.toDo with
        | none => rw [htd] at h; simp at h
        | some td =>
          rw [htd] at h
          dsimp only at h
          cases hp : ptypesTimestamp td.reminder with
          | error e => rw [hp] at h; simp at h
          | ok v =>
            rw [hp] at h
            simp at h
            rw [← h.1]
      exact ⟨hv, fun hne => by rw [hv, api_of_checkAPI_none hk hne]⟩
  · intro resp h
    unfold Read at h
    cases hk : checkAPI rr.api with
    | some e => rw [hk] at h; simp at h
    | none =>
      rw [hk] at h
      dsimp only at h
      have hv : resp.api = apiVersion := by
        cases hf : db.rows.filter (fun r => r.id == rr.id) with
        | nil => rw [hf] at h; simp at h
        | cons r rest =>
          rw [hf] at h
          dsimp only at h
          cases hp : ptypesTimestampProto r.reminder with
          | error e => rw [hp] at h; simp at h
          | ok ts =>
            rw [hp] at h
            cases rest with
            | nil => simp at h; rw [← h]
            | cons r2 rest2 => simp at h
      exact ⟨hv, fun hne => by rw [hv, api_of_checkAPI_none hk hne]⟩
  · intro resp db2 h
    unfold Update at h
    cases hk : checkAPI ur.api with
    | some e => rw [hk] at h; simp at h
    | none =>
      rw [hk] at h
      dsimp only at h
      have hv : resp.api = apiVersion := by
        cases hp : ptypesTimestamp (getReminder ur.toDo) with
        | error e => rw [hp] at h; simp at h
        | ok v =>
          rw [hp] at h
          dsimp only at h
          by_cases hz : ((db.rows.filter
              (fun r => r.id == getId ur.toDo)).length : Int) == 0
          · simp [hz] at h
          · simp [hz] at h
            rw [← h.1]
      exact ⟨hv, fun hne => by rw [hv, api_of_checkAPI_none hk hne]⟩
  · intro resp db2 h
    unfold Delete at h
    cases hk : checkAPI dr.api with
    | some e => rw [hk] at h; simp at h
    | none =>
      rw [hk] at h
      dsimp only at h
      have hv : resp.api = apiVersion := by
        by_cases hz : ((db.rows.filter
            (fun r => r.id == dr.id)).length : Int) == 0
        · simp [hz] at h
        · simp [hz] at h
          rw [← h.1]
      exact ⟨hv, fun hne => by rw [hv, api_of_checkAPI_none hk hne]⟩
  · intro resp h
    unfold ReadAll at h
    cases hk : checkAPI ar.api with
    | some e => rw [hk] at h; simp at h
    | none =>
      rw [hk] at h
      dsimp only at h
      have hv : resp.api = apiVersion := by
        cases hl : readAllLoop db.rows [] with
        | fail e => rw [hl] at h; simp at h
        | panics => rw [hl] at h; simp at h
        | ok list => rw [hl] at h; simp at h; rw [← h]
      exact ⟨hv, fun hne => by rw [hv, api_of_checkAPI_none hk hne]⟩

/-- C5 amended witness: a concrete successful Read against a one-row table
returns the api constant, and the non-empty request version v1 is echoed. -/
theorem success_api_is_server_version_witness :
    ({ api := "v1",
       toDo := some { id := 1, title := "t", description := "d",
                      reminder := some { seconds := 0, nanos := 0 } } } :
      ReadResponse).api = apiVersion ∧
    (("v1" : String) ≠ "" →
      ({ api := "v1",
         toDo := some { id := 1, title := "t", description := "d",
                        reminder := some { seconds := 0, nanos := 0 } } } :
        ReadResponse).api = "v1") :=
  (success_api_is_server_version
    { rows := [{ id := 1, title := "t", description := "d", reminder := 0 }],
      nextId := 2 }
    { api := "v1", toDo := none } { api := "v1", id := 1 }
    { api := "v1", toDo := none } { api := "v1", id := 1 } { api := "v1" }).2.1
    { api := "v1",
      toDo := some { id := 1, title := "t", description := "d",
                     reminder := some { seconds := 0, nanos := 0 } } }
    (by rfl)

end TodoService
